import Mathlib

/-!
Verification of the DocuSpark ingestion, session-state and chat-orchestration
pipeline (`src/app.py`), shallowly embedded in Lean.

Components that live outside `src/` (the PDF processor, the embedding manager,
the chat manager and the config module) appear only through their call sites in
`app.py`; where their behaviour decides a property they are modelled from the
spec, and each such definition says so in its doc comment.
-/

namespace DocuSpark

/-- The 2 GiB size cap in bytes (`app.py` line 54: `max_size = 2 * 1024 * 1024 * 1024`). -/
def maxSize : Nat := 2 * 1024 * 1024 * 1024

/-- A document chunk (a LangChain `Document`) as produced by
`PDFProcessor.process_document`. -/
structure Chunk where
  text : String
  sourceName : String
  deriving Repr, DecidableEq

/-- A chat message stored in `st.session_state.messages`. -/
structure Message where
  role : String
  content : String
  deriving Repr, DecidableEq

instance {ε α : Type} [DecidableEq ε] [DecidableEq α] : DecidableEq (Except ε α) :=
  fun x y =>
    match x, y with
    | .ok a, .ok b =>
      if h : a = b then .isTrue (by rw [h]) else .isFalse (by simp [h])
    | .error a, .error b =>
      if h : a = b then .isTrue (by rw [h]) else .isFalse (by simp [h])
    | .ok _, .error _ => .isFalse (by simp)
    | .error _, .ok _ => .isFalse (by simp)

/-- A source handed to `process_documents`: either a filesystem path (the
`isinstance(file, str)` branch) or an uploaded file object. `size` is the
reported byte size (`os.path.getsize` on the path branch, seek-to-end/`tell` on
the upload branch); `extract` is the outcome of
`PDFProcessor.process_document` on this source (`ok`: the produced chunks,
`error`: the exception it raises — the processor itself is outside `src/`). -/
inductive FileSource where
  | path (name : String) (size : Nat) (extract : Except String (List Chunk))
  | upload (name : String) (size : Nat) (extract : Except String (List Chunk))
  deriving Repr, DecidableEq

/-- The reported name of a source (`os.path.basename` / `file.name`). -/
def FileSource.name : FileSource → String
  | .path n _ _ => n
  | .upload n _ _ => n

/-- The reported byte size of a source. -/
def FileSource.size : FileSource → Nat
  | .path _ s _ => s
  | .upload _ s _ => s

/-- The extraction outcome of `PDFProcessor.process_document` on this source. -/
def FileSource.extract : FileSource → Except String (List Chunk)
  | .path _ _ e => e
  | .upload _ _ e => e

/-- The Streamlit session-state fields the verified properties concern.
`documents` is `st.session_state.documents` (the chunk collection);
`vectors` is the list of chunk-keys currently holding an embedding vector in
the `EmbeddingManager`'s index (the manager is outside `src/` and is
spec-modelled, see `createEmbeddings`); `messages` is the conversation turn
sequence; `largeFiles` is `st.session_state.large_files`; `retrieverSet`
records whether `chat_manager.set_retriever` has connected a retriever. -/
structure SessionState where
  documents : List Chunk
  vectors : List Chunk
  messages : List Message
  largeFiles : List String
  retrieverSet : Bool
  deriving Repr, DecidableEq

/-- The state right after `initialize_session_state` created the fields. -/
def SessionState.init : SessionState :=
  { documents := [], vectors := [], messages := [], largeFiles := [], retrieverSet := false }

/-- Modelled from the spec: `EmbeddingManager.create_embeddings` is not under
`src/`. Per the spec (§4.2) the index insert appends to the existing index and
is all-or-nothing: on success exactly one vector per chunk is appended, on
failure zero partial inserts occur. Whether the external embedding computation
succeeds is the input `ok`; the result is the new vector index (as chunk-keys)
and the boolean `create_embeddings` returns. -/
def createEmbeddings (vectors : List Chunk) (chunks : List Chunk) (ok : Bool) :
    List Chunk × Bool :=
  if ok then (vectors ++ chunks, true) else (vectors, false)

/-- Outcome of the for-loop over `files_to_process` in `process_documents`. -/
inductive LoopOutcome where
  | ok (allDocs : List Chunk)
  | tooLarge (name : String) (size : Nat)
  | exc (msg : String)
  deriving Repr, DecidableEq

/-- The for-loop of `process_documents` (`app.py` 56–82): for each file, read
its reported size; if it is strictly above `maxSize`, show the too-large error
and return `False` (modelled as `tooLarge` carrying the name and observed
size); otherwise call `process_document` and extend `all_documents`; an
exception from extraction aborts through the outer `except` (modelled as
`exc`). Both the path branch and the upload branch perform the same check
before the same extraction call. The second component accumulates the files on
which `process_document` was actually invoked. -/
def processLoop : List FileSource → List Chunk → List FileSource →
    LoopOutcome × List FileSource
  | [], acc, ext => (.ok acc, ext)
  | f :: fs, acc, ext =>
    if maxSize < f.size then (.tooLarge f.name f.size, ext)
    else
      match f.extract with
      | .ok cs => processLoop fs (acc ++ cs) (ext ++ [f])
      | .error m => (.exc m, ext ++ [f])

/-- Result of `process_documents`: the session state afterwards, the returned
boolean, the files on which `process_document` was invoked, and the surfaced
too-large error (source name and observed byte size) if any. -/
structure ProcResult where
  state : SessionState
  success : Bool
  extracted : List FileSource
  sizeError : Option (String × Nat)
  deriving Repr, DecidableEq

/-- `process_documents` (`app.py` 39–103): run the loop over the files; when
the loop completes, store `all_documents` into `st.session_state.documents`
(an assignment, replacing the previous list), then run `create_embeddings`; on
embedding success connect the retriever and return `True`, otherwise return
`False`. A size violation or an extraction exception returns `False` before
the assignment, leaving the session state untouched. -/
def processDocuments (st : SessionState) (files : List FileSource) (embedOk : Bool) :
    ProcResult :=
  match processLoop files [] [] with
  | (.ok allDocs, ext) =>
    let st1 : SessionState := { st with documents := allDocs }
    let res := createEmbeddings st1.vectors allDocs embedOk
    if res.2 then
      { state := { st1 with vectors := res.1, retrieverSet := true },
        success := true, extracted := ext, sizeError := none }
    else
      { state := { st1 with vectors := res.1 },
        success := false, extracted := ext, sizeError := none }
  | (.tooLarge n s, ext) =>
    { state := st, success := false, extracted := ext, sizeError := some (n, s) }
  | (.exc _, ext) =>
    { state := st, success := false, extracted := ext, sizeError := none }

/-- The chunks a batch of sources extracts when every extraction succeeds
(a failed extraction contributes nothing — the batch aborts there). -/
def batchChunks : List FileSource → List Chunk
  | [] => []
  | f :: fs => (match f.extract with | .ok cs => cs | .error _ => []) ++ batchChunks fs

/-- The fixed response written and recorded when no documents are loaded
(`app.py` 205–206). -/
def noDocsResponse : String := "Please upload and process PDF documents first!"

/-- Result of the chat-input handler: the session state afterwards, the
surfaced answer (or the propagated generation error), and whether
`embedding_manager.search` and `chat_manager.generate_response` were invoked. -/
structure AskResult where
  state : SessionState
  response : Except String String
  searchCalled : Bool
  generateCalled : Bool
  deriving Repr, DecidableEq

/-- The chat-input handler of `main` (`app.py` 196–222). The user turn is
appended first; if `st.session_state.documents` is empty, the fixed
`noDocsResponse` is written, recorded as an assistant turn, and the handler
returns without touching the embedding manager or the chat manager. Otherwise,
when a retriever is connected `generate_response(query, [])` is called; on the
fallback path `embedding_manager.search(query)` is called (its result is the
input `searchRes`) and then `generate_response(query, relevant_docs)`. `gen`
is the outcome of `chat_manager.generate_response` (modelled from the spec:
the `ChatManager` is not under `src/`; per the spec the generation boundary
returns the answer text or fails with `GenerationError`, as a function of the
documents passed to it). A raised generation error propagates out before the
assistant-turn append on line 222 runs. -/
def handleQuery (st : SessionState) (q : String) (searchRes : List Chunk)
    (gen : List Chunk → Except String String) : AskResult :=
  let st1 : SessionState := { st with messages := st.messages ++ [⟨"user", q⟩] }
  if st1.documents = [] then
    { state := { st1 with messages := st1.messages ++ [⟨"assistant", noDocsResponse⟩] },
      response := Except.ok noDocsResponse, searchCalled := false, generateCalled := false }
  else
    let sc := !st1.retrieverSet
    match (if st1.retrieverSet then gen [] else gen searchRes) with
    | .ok r =>
      { state := { st1 with messages := st1.messages ++ [⟨"assistant", r⟩] },
        response := Except.ok r, searchCalled := sc, generateCalled := true }
    | .error e =>
      { state := st1, response := Except.error e, searchCalled := sc, generateCalled := true }

/-- The Clear Conversation action (`app.py` 177–180): empties
`st.session_state.messages` and calls `chat_manager.reset_conversation`
(internal to the `ChatManager`, outside `src/`); `documents`, the vector
index and `large_files` are not touched. -/
def clearConversation (st : SessionState) : SessionState :=
  { st with messages := [] }

/-- The Clear File Chunks action (`app.py` 182–188): empties
`st.session_state.documents` and `st.session_state.large_files` and calls
`embedding_manager.clear_embeddings` (modelled from the spec: the
`EmbeddingManager` is not under `src/`; per §4.2 `clear` removes all chunks
and vectors). -/
def clearDocuments (st : SessionState) : SessionState :=
  { st with documents := [], largeFiles := [], vectors := [] }

/-- The check `file_path.lower().endswith('.pdf')` (`app.py` 142), computed
characterwise: lowercase every character and compare the last four characters
with `.pdf`. -/
def isPdfPath (p : String) : Bool :=
  (p.data.map Char.toLower).reverse.take 4 == ".pdf".data.reverse

/-- The sidebar file-path validation (`app.py` 141–159): a nonempty entered
path must end in `.pdf` (after lowercasing) and exist; `os.path.getsize` is
read inside a `try` (an exception shows an error and changes nothing); a size
strictly above the cap shows the too-large error; otherwise the path is
appended to `large_files` (initialised to `[]` when absent) with no
deduplication check. -/
def validateFilePath (st : SessionState) (p : String) (pexists : Bool)
    (sizeResult : Except String Nat) : SessionState :=
  if p = "" then st
  else if !(isPdfPath p) then st
  else if !pexists then st
  else
    match sizeResult with
    | .error _ => st
    | .ok sz =>
      if maxSize < sz then st
      else { st with largeFiles := st.largeFiles ++ [p] }

/-- The batch assembly above the Process Documents button (`app.py` 162–166):
the uploaded files, then every stored large-file path in order, each path read
through the filesystem oracle `fsys` giving its current size and extraction
outcome. -/
def assembleBatch (uploaded : List FileSource) (large : List String)
    (fsys : String → Nat × Except String (List Chunk)) : List FileSource :=
  uploaded ++ large.map (fun r => FileSource.path r (fsys r).1 (fsys r).2)

/-- Outcome of `initialize_session_state`: the returned boolean and whether
the missing-API-key error was shown. -/
structure InitResult where
  ok : Bool
  errorShown : Bool
  deriving Repr, DecidableEq

/-- `initialize_session_state` (`app.py` 12–37): when no chat manager exists
in the session yet and `Config.is_valid()` is false, the missing-API-key error
is shown and `False` is returned; otherwise the components are created and
`True` is returned. The config module is not under `src/`; validity of the
`GOOGLE_API_KEY` credential is the boolean input `credentialValid`. -/
def initializeSessionState (hasChatManager credentialValid : Bool) : InitResult :=
  if hasChatManager then { ok := true, errorShown := false }
  else if !credentialValid then { ok := false, errorShown := true }
  else { ok := true, errorShown := false }

/-- A session command reaching the body of `main`. -/
inductive Event where
  | validatePath (p : String) (pexists : Bool) (sizeResult : Except String Nat)
  | processBatch (files : List FileSource) (embedOk : Bool)
  | query (q : String) (searchRes : List Chunk) (gen : List Chunk → Except String String)
  | clearConv
  | clearDocs

/-- One interaction handled by the body of `main`. -/
def step (st : SessionState) : Event → SessionState
  | .validatePath p ex szr => validateFilePath st p ex szr
  | .processBatch files ok => (processDocuments st files ok).state
  | .query q sr g => (handleQuery st q sr g).state
  | .clearConv => clearConversation st
  | .clearDocs => clearDocuments st

/-- `main` (`app.py` 105–222) from session start: if
`initialize_session_state` returns `False`, `main` returns at once and none of
the sidebar or chat interactions run. Returns the final state together with
the list of events actually handled. -/
def runMain (credentialValid : Bool) (events : List Event) (st : SessionState) :
    SessionState × List Event :=
  if (initializeSessionState false credentialValid).ok then
    (events.foldl step st, events)
  else (st, [])

/-- A sample session holding one loaded chunk with its vector, retriever connected. -/
def sampleLoaded : SessionState :=
  { documents := [⟨"c", "a.pdf"⟩], vectors := [⟨"c", "a.pdf"⟩], messages := [],
    largeFiles := [], retrieverSet := true }

/-- A sample session holding one previously ingested chunk with its vector. -/
def sampleOld : SessionState :=
  { documents := [⟨"old", "o.pdf"⟩], vectors := [⟨"old", "o.pdf"⟩], messages := [],
    largeFiles := [], retrieverSet := true }

/-- A sample session with one stored large-file path. -/
def sampleWithPath : SessionState :=
  { documents := [], vectors := [], messages := [], largeFiles := ["a.pdf"],
    retrieverSet := false }

/-! Helper lemmas about the ingestion loop and `process_documents`. -/

theorem FileSource.size_path (n : String) (s : Nat) (ex : Except String (List Chunk)) :
    (FileSource.path n s ex).size = s := rfl

theorem FileSource.size_upload (n : String) (s : Nat) (ex : Except String (List Chunk)) :
    (FileSource.upload n s ex).size = s := rfl

theorem processLoop_extracted_le (files : List FileSource) :
    ∀ acc ext, (∀ g ∈ ext, g.size ≤ maxSize) →
      ∀ g ∈ (processLoop files acc ext).2, g.size ≤ maxSize := by
  induction files with
  | nil =>
    intro acc ext h g hg
    simpa [processLoop] using h g hg
  | cons f fs ih =>
    intro acc ext h g hg
    by_cases hs : maxSize < f.size
    · simp [processLoop, hs] at hg
      exact h g hg
    · have hext : ∀ g ∈ ext ++ [f], g.size ≤ maxSize := by
        intro g hg'
        rcases List.mem_append.mp hg' with h1 | h1
        · exact h g h1
        · simp at h1
          subst h1
          exact Nat.le_of_not_lt hs
      cases he : f.extract with
      | ok cs =>
        simp [processLoop, hs, he] at hg
        exact ih (acc ++ cs) (ext ++ [f]) hext g hg
      | error m =>
        simp [processLoop, hs, he] at hg
        exact hext g (by simpa using hg)

theorem processLoop_ok_eq (files : List FileSource) :
    ∀ acc ext ds ext', processLoop files acc ext = (.ok ds, ext') →
      ds = acc ++ batchChunks files := by
  induction files with
  | nil =>
    intro acc ext ds ext' h
    simp [processLoop] at h
    simp [batchChunks, h.1.symm]
  | cons f fs ih =>
    intro acc ext ds ext' h
    by_cases hs : maxSize < f.size
    · simp [processLoop, hs] at h
    · cases he : f.extract with
      | ok cs =>
        simp only [processLoop, if_neg hs, he] at h
        have := ih (acc ++ cs) (ext ++ [f]) ds ext' h
        simp [this, batchChunks, he, List.append_assoc]
      | error m =>
        simp [processLoop, hs, he] at h

theorem processDocuments_ok_embedTrue (st : SessionState) (files : List FileSource)
    (ds : List Chunk) (ext : List FileSource)
    (hl : processLoop files [] [] = (.ok ds, ext)) :
    processDocuments st files true =
      { state := { st with documents := ds, vectors := st.vectors ++ ds, retrieverSet := true },
        success := true, extracted := ext, sizeError := none } := by
  unfold processDocuments
  rw [hl]
  rfl

theorem processDocuments_ok_embedFalse (st : SessionState) (files : List FileSource)
    (ds : List Chunk) (ext : List FileSource)
    (hl : processLoop files [] [] = (.ok ds, ext)) :
    processDocuments st files false =
      { state := { st with documents := ds },
        success := false, extracted := ext, sizeError := none } := by
  unfold processDocuments
  rw [hl]
  rfl

theorem processDocuments_tooLarge (st : SessionState) (files : List FileSource)
    (embedOk : Bool) (n : String) (s : Nat) (ext : List FileSource)
    (hl : processLoop files [] [] = (.tooLarge n s, ext)) :
    processDocuments st files embedOk =
      { state := st, success := false, extracted := ext, sizeError := some (n, s) } := by
  unfold processDocuments
  rw [hl]

theorem processDocuments_exc (st : SessionState) (files : List FileSource)
    (embedOk : Bool) (m : String) (ext : List FileSource)
    (hl : processLoop files [] [] = (.exc m, ext)) :
    processDocuments st files embedOk =
      { state := st, success := false, extracted := ext, sizeError := none } := by
  unfold processDocuments
  rw [hl]

theorem processDocuments_extracted (st : SessionState) (files : List FileSource)
    (embedOk : Bool) :
    (processDocuments st files embedOk).extracted = (processLoop files [] []).2 := by
  rcases hl : processLoop files [] [] with ⟨o, ext⟩
  cases o with
  | ok ds =>
    cases embedOk
    · rw [processDocuments_ok_embedFalse st files ds ext hl]
    · rw [processDocuments_ok_embedTrue st files ds ext hl]
  | tooLarge n s => rw [processDocuments_tooLarge st files embedOk n s ext hl]
  | exc m => rw [processDocuments_exc st files embedOk m ext hl]

/-- C1: a source whose reported byte size exceeds the 2 GiB cap is rejected before any
extraction call — `process_document` is only ever invoked on sources within the cap —
and ingesting a single oversize source (such as one reported at 3 GiB) fails with the
too-large error carrying the observed size, with no extraction call made and the
session state untouched. -/
theorem C1_oversize_rejected_before_extraction
    (st : SessionState) (files : List FileSource) (embedOk : Bool) :
    (∀ g ∈ (processDocuments st files embedOk).extracted, g.size ≤ maxSize) ∧
    (∀ f : FileSource, maxSize < f.size →
      (processDocuments st [f] embedOk).extracted = [] ∧
      (processDocuments st [f] embedOk).sizeError = some (f.name, f.size) ∧
      (processDocuments st [f] embedOk).success = false ∧
      (processDocuments st [f] embedOk).state = st) := by
  constructor
  · intro g hg
    rw [processDocuments_extracted] at hg
    exact processLoop_extracted_le files [] [] (by intro g h; simp at h) g hg
  · intro f hf
    have hl : processLoop [f] [] [] = (.tooLarge f.name f.size, []) := by
      simp [processLoop, hf]
    rw [processDocuments_tooLarge st [f] embedOk f.name f.size [] hl]
    exact ⟨rfl, rfl, rfl, rfl⟩

/-- Witness for C1: a source reported at 3 GiB with the 2 GiB cap. -/
theorem C1_oversize_rejected_before_extraction_witness :
    maxSize < (3 * 1024 * 1024 * 1024 : Nat) ∧
    ((processDocuments SessionState.init
        [FileSource.upload "big.pdf" (3 * 1024 * 1024 * 1024) (Except.ok [])] true).extracted
        = [] ∧
      (processDocuments SessionState.init
        [FileSource.upload "big.pdf" (3 * 1024 * 1024 * 1024) (Except.ok [])] true).sizeError
        = some ("big.pdf", 3 * 1024 * 1024 * 1024) ∧
      (processDocuments SessionState.init
        [FileSource.upload "big.pdf" (3 * 1024 * 1024 * 1024) (Except.ok [])] true).success
        = false ∧
      (processDocuments SessionState.init
        [FileSource.upload "big.pdf" (3 * 1024 * 1024 * 1024) (Except.ok [])] true).state
        = SessionState.init) :=
  ⟨by decide,
    (C1_oversize_rejected_before_extraction SessionState.init [] true).2
      (FileSource.upload "big.pdf" (3 * 1024 * 1024 * 1024) (Except.ok [])) (by decide)⟩

/-- C2: when the session's chunk collection is empty, the chat handler returns the
fixed no-documents response, invokes neither `embedding_manager.search` nor
`chat_manager.generate_response`, and still records the user message and the fixed
response in the conversation history. -/
theorem C2_empty_documents_guard (st : SessionState) (q : String) (sr : List Chunk)
    (gen : List Chunk → Except String String) (h : st.documents = []) :
    (handleQuery st q sr gen).response = Except.ok noDocsResponse ∧
    (handleQuery st q sr gen).searchCalled = false ∧
    (handleQuery st q sr gen).generateCalled = false ∧
    (handleQuery st q sr gen).state.messages
      = st.messages ++ [⟨"user", q⟩, ⟨"assistant", noDocsResponse⟩] := by
  simp [handleQuery, h]

/-- Witness for C2: `ask("anything")` with zero documents loaded. -/
theorem C2_empty_documents_guard_witness :
    SessionState.init.documents = [] ∧
    ((handleQuery SessionState.init "anything" [] (fun _ => Except.ok "unused")).response
        = Except.ok noDocsResponse ∧
      (handleQuery SessionState.init "anything" [] (fun _ => Except.ok "unused")).searchCalled
        = false ∧
      (handleQuery SessionState.init "anything" [] (fun _ => Except.ok "unused")).generateCalled
        = false ∧
      (handleQuery SessionState.init "anything" [] (fun _ => Except.ok "unused")).state.messages
        = SessionState.init.messages
            ++ [⟨"user", "anything"⟩, ⟨"assistant", noDocsResponse⟩]) :=
  ⟨rfl, C2_empty_documents_guard SessionState.init "anything" []
      (fun _ => Except.ok "unused") rfl⟩

/-- C3 fails on the code: with one chunk already ingested, a batch whose extraction
succeeds but whose embedding computation fails leaves the session's chunk collection
replaced by the new batch's chunks — not as it was before the failing step. The
assignment `st.session_state.documents = all_documents` (`app.py` 85) runs before
`create_embeddings` is checked. -/
theorem C3_counterexample :
    ((processDocuments sampleOld
        [FileSource.upload "n.pdf" 10 (Except.ok [⟨"new", "n.pdf"⟩])] false).success
      = false) ∧
    ¬ ((processDocuments sampleOld
        [FileSource.upload "n.pdf" 10 (Except.ok [⟨"new", "n.pdf"⟩])] false).state.documents
      = sampleOld.documents) := by
  decide

/-- C3 amended: a failure during a document's processing (extraction exception) or a
size rejection leaves the whole session state exactly as before, and no ingestion
failure of any kind ever changes the vector index; but when the embedding computation
fails after the loop, the chunk collection has already been replaced by the new
batch's chunks. -/
theorem C3_failure_frame (st : SessionState) (files : List FileSource) (embedOk : Bool) :
    ((processDocuments st files embedOk).success = false →
      (processDocuments st files embedOk).state.vectors = st.vectors) ∧
    (∀ m ext, processLoop files [] [] = (.exc m, ext) →
      (processDocuments st files embedOk).state = st) ∧
    (∀ n s ext, processLoop files [] [] = (.tooLarge n s, ext) →
      (processDocuments st files embedOk).state = st) ∧
    (∀ ds ext, processLoop files [] [] = (.ok ds, ext) → embedOk = false →
      (processDocuments st files embedOk).state.documents = ds) := by
  refine ⟨?_, ?_, ?_, ?_⟩
  · intro hsucc
    rcases hl : processLoop files [] [] with ⟨o, ext⟩
    cases o with
    | ok ds =>
      cases embedOk
      · rw [processDocuments_ok_embedFalse st files ds ext hl]
      · rw [processDocuments_ok_embedTrue st files ds ext hl] at hsucc
        simp at hsucc
    | tooLarge n s => rw [processDocuments_tooLarge st files embedOk n s ext hl]
    | exc m => rw [processDocuments_exc st files embedOk m ext hl]
  · intro m ext hl
    rw [processDocuments_exc st files embedOk m ext hl]
  · intro n s ext hl
    rw [processDocuments_tooLarge st files embedOk n s ext hl]
  · intro ds ext hl hem
    subst hem
    rw [processDocuments_ok_embedFalse st files ds ext hl]

/-- Witness for C3 amended: an extraction failure leaves the state untouched, a failed
ingestion leaves the vector index untouched, and a failed embedding step leaves the
chunk collection replaced by the new batch's chunks. -/
theorem C3_failure_frame_witness :
    ((processDocuments SessionState.init
        [FileSource.upload "e.pdf" 5 (Except.error "boom")] true).state
      = SessionState.init) ∧
    ((processDocuments SessionState.init
        [FileSource.upload "n.pdf" 5 (Except.ok [⟨"new", "n.pdf"⟩])] false).state.vectors
      = SessionState.init.vectors) ∧
    ((processDocuments SessionState.init
        [FileSource.upload "n.pdf" 5 (Except.ok [⟨"new", "n.pdf"⟩])] false).state.documents
      = [⟨"new", "n.pdf"⟩]) :=
  ⟨(C3_failure_frame SessionState.init
      [FileSource.upload "e.pdf" 5 (Except.error "boom")] true).2.1 "boom"
      [FileSource.upload "e.pdf" 5 (Except.error "boom")] (by decide),
    (C3_failure_frame SessionState.init
      [FileSource.upload "n.pdf" 5 (Except.ok [⟨"new", "n.pdf"⟩])] false).1 (by decide),
    (C3_failure_frame SessionState.init
      [FileSource.upload "n.pdf" 5 (Except.ok [⟨"new", "n.pdf"⟩])] false).2.2.2
      [⟨"new", "n.pdf"⟩] [FileSource.upload "n.pdf" 5 (Except.ok [⟨"new", "n.pdf"⟩])]
      (by decide) rfl⟩

/-- C4 fails on the code: a successful ingestion into a session already holding a
chunk drops that chunk — `process_documents` assigns `all_documents` over
`st.session_state.documents` instead of appending. -/
theorem C4_counterexample :
    ((processDocuments sampleOld
        [FileSource.upload "n.pdf" 10 (Except.ok [⟨"new", "n.pdf"⟩])] true).success
      = true) ∧
    (⟨"old", "o.pdf"⟩ : Chunk) ∉
      (processDocuments sampleOld
        [FileSource.upload "n.pdf" 10 (Except.ok [⟨"new", "n.pdf"⟩])] true).state.documents := by
  decide

/-- C4 amended: a successful ingestion replaces the session's chunk collection with
exactly the new batch's chunks (previously ingested chunks survive only if the batch
re-extracts them), while the vector index — spec-modelled, since the embedding
manager is outside `src/` — appends the batch's vectors to the existing ones. -/
theorem C4_success_replaces (st : SessionState) (files : List FileSource)
    (embedOk : Bool) (h : (processDocuments st files embedOk).success = true) :
    (processDocuments st files embedOk).state.documents = batchChunks files ∧
    (processDocuments st files embedOk).state.vectors = st.vectors ++ batchChunks files := by
  rcases hl : processLoop files [] [] with ⟨o, ext⟩
  cases o with
  | ok ds =>
    have hds : ds = batchChunks files := by
      simpa using processLoop_ok_eq files [] [] ds ext hl
    cases embedOk
    · rw [processDocuments_ok_embedFalse st files ds ext hl] at h
      simp at h
    · rw [processDocuments_ok_embedTrue st files ds ext hl]
      exact ⟨hds, by rw [hds]⟩
  | tooLarge n s =>
    rw [processDocuments_tooLarge st files embedOk n s ext hl] at h
    simp at h
  | exc m =>
    rw [processDocuments_exc st files embedOk m ext hl] at h
    simp at h

/-- Witness for C4 amended: a successful one-file batch over a session holding one
older chunk ends with only the new chunk in the collection and both keys in the
(spec-modelled) vector index. -/
theorem C4_success_replaces_witness :
    ((processDocuments sampleOld
        [FileSource.upload "n.pdf" 10 (Except.ok [⟨"new", "n.pdf"⟩])] true).state.documents
      = batchChunks [FileSource.upload "n.pdf" 10 (Except.ok [⟨"new", "n.pdf"⟩])]) ∧
    ((processDocuments sampleOld
        [FileSource.upload "n.pdf" 10 (Except.ok [⟨"new", "n.pdf"⟩])] true).state.vectors
      = sampleOld.vectors
          ++ batchChunks [FileSource.upload "n.pdf" 10 (Except.ok [⟨"new", "n.pdf"⟩])]) :=
  C4_success_replaces sampleOld
    [FileSource.upload "n.pdf" 10 (Except.ok [⟨"new", "n.pdf"⟩])] true (by decide)

/-- C5: the Clear Conversation action empties the turn sequence and leaves the chunk
collection and the vector index unchanged — conversation reset is independent from
document-set reset. -/
theorem C5_reset_conversation_frame (st : SessionState) :
    (clearConversation st).messages = [] ∧
    (clearConversation st).documents = st.documents ∧
    (clearConversation st).vectors = st.vectors :=
  ⟨rfl, rfl, rfl⟩

/-- C6 fails on the code: loading one document whose embedding computation fails
leaves one chunk in the collection and zero vectors in the index, so
`len(chunks) == len(vectors)` does not hold after every `load_documents` operation. -/
theorem C6_counterexample :
    ((processDocuments SessionState.init
        [FileSource.upload "a.pdf" 5 (Except.ok [⟨"c", "a.pdf"⟩])] false).state.documents.length
      = 1) ∧
    ((processDocuments SessionState.init
        [FileSource.upload "a.pdf" 5 (Except.ok [⟨"c", "a.pdf"⟩])] false).state.vectors.length
      = 0) := by
  decide

/-- C6 amended: `len(chunks) == len(vectors)` holds after every `clear_documents`
operation, and after a `load_documents` that succeeds starting from an empty vector
index; a load whose embedding step fails (or, with the spec-modelled appending index,
a successful load over a nonempty index) can leave the two lengths different. -/
theorem C6_length_invariant_restricted (st : SessionState) (files : List FileSource)
    (embedOk : Bool) :
    ((clearDocuments st).documents.length = (clearDocuments st).vectors.length) ∧
    (st.vectors = [] → (processDocuments st files embedOk).success = true →
      (processDocuments st files embedOk).state.documents.length
        = (processDocuments st files embedOk).state.vectors.length) := by
  refine ⟨rfl, ?_⟩
  intro hv hsucc
  rcases hl : processLoop files [] [] with ⟨o, ext⟩
  cases o with
  | ok ds =>
    cases embedOk
    · rw [processDocuments_ok_embedFalse st files ds ext hl] at hsucc
      simp at hsucc
    · rw [processDocuments_ok_embedTrue st files ds ext hl]
      simp [hv]
  | tooLarge n s =>
    rw [processDocuments_tooLarge st files embedOk n s ext hl] at hsucc
    simp at hsucc
  | exc m =>
    rw [processDocuments_exc st files embedOk m ext hl] at hsucc
    simp at hsucc

/-- Witness for C6 amended: a successful one-document load into an empty session
leaves one chunk and one vector. -/
theorem C6_length_invariant_restricted_witness :
    (processDocuments SessionState.init
      [FileSource.upload "a.pdf" 5 (Except.ok [⟨"c", "a.pdf"⟩])] true).state.documents.length
      = (processDocuments SessionState.init
          [FileSource.upload "a.pdf" 5 (Except.ok [⟨"c", "a.pdf"⟩])] true).state.vectors.length :=
  (C6_length_invariant_restricted SessionState.init
    [FileSource.upload "a.pdf" 5 (Except.ok [⟨"c", "a.pdf"⟩])] true).2 rfl (by decide)

/-- C7: when the external generation call fails, no assistant turn is appended — the
history afterwards is exactly the prior history plus the legitimate user turn — the
generation error is surfaced to the caller, and the chunk collection and vector index
are untouched. -/
theorem C7_generation_failure_no_phantom_turn (st : SessionState) (q e : String)
    (sr : List Chunk) (gen : List Chunk → Except String String)
    (hd : st.documents ≠ []) (hg : ∀ docs, gen docs = Except.error e) :
    (handleQuery st q sr gen).state.messages = st.messages ++ [⟨"user", q⟩] ∧
    (handleQuery st q sr gen).response = Except.error e ∧
    (handleQuery st q sr gen).state.documents = st.documents ∧
    (handleQuery st q sr gen).state.vectors = st.vectors := by
  by_cases hr : st.retrieverSet <;> simp [handleQuery, hd, hr, hg]

/-- Witness for C7: a failing generation call over a one-chunk session. -/
theorem C7_generation_failure_no_phantom_turn_witness :
    sampleLoaded.documents ≠ [] ∧
    ((handleQuery sampleLoaded "why" []
        (fun _ => Except.error "GenerationError")).state.messages
      = sampleLoaded.messages ++ [⟨"user", "why"⟩] ∧
      (handleQuery sampleLoaded "why" []
        (fun _ => Except.error "GenerationError")).response
      = Except.error "GenerationError" ∧
      (handleQuery sampleLoaded "why" []
        (fun _ => Except.error "GenerationError")).state.documents
      = sampleLoaded.documents ∧
      (handleQuery sampleLoaded "why" []
        (fun _ => Except.error "GenerationError")).state.vectors
      = sampleLoaded.vectors) :=
  ⟨by decide,
    C7_generation_failure_no_phantom_turn sampleLoaded "why" "GenerationError" []
      (fun _ => Except.error "GenerationError") (by decide) (fun _ => rfl)⟩

/-- C8: with the credential missing at session start, `initialize_session_state`
shows the error and returns `False`, and `main` returns at once: no ingestion, query
or chat interaction is handled and the session state is untouched. -/
theorem C8_missing_credential_blocks (events : List Event) (st : SessionState) :
    (initializeSessionState false false).ok = false ∧
    (initializeSessionState false false).errorShown = true ∧
    runMain false events st = (st, []) :=
  ⟨rfl, rfl, rfl⟩

/-- C9: the oversize check rejects a source only when its reported size is strictly
greater than 2 GiB: any single source within the cap — in particular one of exactly
`maxSize` bytes, on both the filesystem-path branch and the uploaded-file branch — is
accepted and handed to `process_document`, and the sidebar path validation likewise
accepts a path whose size equals the cap. -/
theorem C9_cap_boundary_accepts_exact (st : SessionState) (n p : String)
    (ex : Except String (List Chunk)) (embedOk : Bool) :
    (∀ f : FileSource, f.size ≤ maxSize →
      (processDocuments st [f] embedOk).extracted = [f] ∧
      (processDocuments st [f] embedOk).sizeError = none) ∧
    ((processDocuments st [FileSource.path n maxSize ex] embedOk).extracted
        = [FileSource.path n maxSize ex] ∧
      (processDocuments st [FileSource.path n maxSize ex] embedOk).sizeError = none) ∧
    ((processDocuments st [FileSource.upload n maxSize ex] embedOk).extracted
        = [FileSource.upload n maxSize ex] ∧
      (processDocuments st [FileSource.upload n maxSize ex] embedOk).sizeError = none) ∧
    (p ≠ "" → isPdfPath p = true →
      (validateFilePath st p true (Except.ok maxSize)).largeFiles = st.largeFiles ++ [p]) := by
  have main : ∀ f : FileSource, f.size ≤ maxSize →
      (processDocuments st [f] embedOk).extracted = [f] ∧
      (processDocuments st [f] embedOk).sizeError = none := by
    intro f hf
    have hs : ¬ maxSize < f.size := Nat.not_lt.mpr hf
    cases he : f.extract with
    | ok cs =>
      have hl : processLoop [f] [] [] = (.ok cs, [f]) := by
        simp [processLoop, hs, he]
      cases embedOk
      · rw [processDocuments_ok_embedFalse st [f] cs [f] hl]
        exact ⟨rfl, rfl⟩
      · rw [processDocuments_ok_embedTrue st [f] cs [f] hl]
        exact ⟨rfl, rfl⟩
    | error m =>
      have hl : processLoop [f] [] [] = (.exc m, [f]) := by
        simp [processLoop, hs, he]
      rw [processDocuments_exc st [f] embedOk m [f] hl]
      exact ⟨rfl, rfl⟩
  refine ⟨main, main _ (Nat.le_of_eq (FileSource.size_path n maxSize ex)),
    main _ (Nat.le_of_eq (FileSource.size_upload n maxSize ex)), ?_⟩
  intro hp hpdf
  simp [validateFilePath, hp, hpdf]

/-- Witness for C9: a source of exactly `maxSize` bytes on each branch, and the
sidebar validation at exactly the cap. -/
theorem C9_cap_boundary_accepts_exact_witness :
    ((processDocuments SessionState.init
        [FileSource.path "x.pdf" maxSize (Except.ok [])] true).extracted
      = [FileSource.path "x.pdf" maxSize (Except.ok [])]) ∧
    ((processDocuments SessionState.init
        [FileSource.upload "x.pdf" maxSize (Except.ok [])] true).extracted
      = [FileSource.upload "x.pdf" maxSize (Except.ok [])]) ∧
    ((validateFilePath SessionState.init "x.pdf" true (Except.ok maxSize)).largeFiles
      = SessionState.init.largeFiles ++ ["x.pdf"]) :=
  ⟨((C9_cap_boundary_accepts_exact SessionState.init "x.pdf" "x.pdf" (Except.ok []) true).1
      (FileSource.path "x.pdf" maxSize (Except.ok []))
      (Nat.le_of_eq (FileSource.size_path "x.pdf" maxSize (Except.ok [])))).1,
    ((C9_cap_boundary_accepts_exact SessionState.init "x.pdf" "x.pdf" (Except.ok []) true).1
      (FileSource.upload "x.pdf" maxSize (Except.ok []))
      (Nat.le_of_eq (FileSource.size_upload "x.pdf" maxSize (Except.ok [])))).1,
    (C9_cap_boundary_accepts_exact SessionState.init "x.pdf" "x.pdf" (Except.ok []) true).2.2.2
      (by decide) (by decide)⟩

/-- C10: `process_documents` never changes `large_files`; a passing validation of an
entered path appends that path with no deduplication; the list is emptied by the
Clear File Chunks action and untouched by Clear Conversation and by query handling;
and every stored path is part of every assembled processing batch. -/
theorem C10_large_files_lifecycle (st : SessionState) (files : List FileSource)
    (embedOk : Bool) (q : String) (sr : List Chunk)
    (gen : List Chunk → Except String String) (uploaded : List FileSource)
    (fsys : String → Nat × Except String (List Chunk)) :
    ((processDocuments st files embedOk).state.largeFiles = st.largeFiles) ∧
    (∀ p sz, p ≠ "" → isPdfPath p = true → sz ≤ maxSize →
      (validateFilePath st p true (Except.ok sz)).largeFiles = st.largeFiles ++ [p]) ∧
    ((clearDocuments st).largeFiles = []) ∧
    ((clearConversation st).largeFiles = st.largeFiles) ∧
    ((handleQuery st q sr gen).state.largeFiles = st.largeFiles) ∧
    (∀ r, r ∈ st.largeFiles →
      FileSource.path r (fsys r).1 (fsys r).2 ∈ assembleBatch uploaded st.largeFiles fsys) := by
  refine ⟨?_, ?_, rfl, rfl, ?_, ?_⟩
  · rcases hl : processLoop files [] [] with ⟨o, ext⟩
    cases o with
    | ok ds =>
      cases embedOk
      · rw [processDocuments_ok_embedFalse st files ds ext hl]
      · rw [processDocuments_ok_embedTrue st files ds ext hl]
    | tooLarge n s => rw [processDocuments_tooLarge st files embedOk n s ext hl]
    | exc m => rw [processDocuments_exc st files embedOk m ext hl]
  · intro p sz hp hpdf hsz
    simp [validateFilePath, hp, hpdf, Nat.not_lt.mpr hsz]
  · by_cases hd : st.documents = []
    · simp [handleQuery, hd]
    · rcases hge : (if st.retrieverSet then gen [] else gen sr) with e | r <;>
        simp [handleQuery, hd, hge]
  · intro r hr
    exact List.mem_append_right _ (List.mem_map_of_mem _ hr)

/-- Witness for C10: a stored path is re-appended by a passing validation and is a
member of the assembled batch. -/
theorem C10_large_files_lifecycle_witness :
    ((validateFilePath sampleWithPath "a.pdf" true (Except.ok 7)).largeFiles
      = sampleWithPath.largeFiles ++ ["a.pdf"]) ∧
    (FileSource.path "a.pdf" 5 (Except.ok [])
      ∈ assembleBatch [] sampleWithPath.largeFiles (fun _ => (5, Except.ok []))) :=
  ⟨(C10_large_files_lifecycle sampleWithPath [] true "q" [] (fun _ => Except.ok "a") []
      (fun _ => (5, Except.ok []))).2.1 "a.pdf" 7 (by decide) (by decide) (by decide),
    (C10_large_files_lifecycle sampleWithPath [] true "q" [] (fun _ => Except.ok "a") []
      (fun _ => (5, Except.ok []))).2.2.2.2.2 "a.pdf" (by decide)⟩

end DocuSpark
